import Mathlib

/-!
Shallow embedding of the time-capsule backend (src/main.js): the three
protected route handlers (POST /api/upload, POST /api/capsules/create,
GET /api/capsules), the authentication middleware, and the external
collaborators (S3 put, Rekognition label detection, Redis get/setEx,
Mongo save/find) modelled as injected oracles with explicit call traces.
-/

namespace TimeCapsule

/-- A persisted capsule document (the Capsule mongoose model).  `id` models
the ObjectId that mongoose generates freshly for every `new Capsule(...)`;
the remaining fields are the ones the create handler copies in. -/
structure CapsuleRec where
  id : Nat
  user : String
  title : String
  content : String
  media : List String
  releaseDate : String
deriving DecidableEq

/-- The JSON bodies the handlers send: `msg` for `{message}`, `msgErr` for
`{message, error}`, `uploadOk` for `{fileUrl, detectedLabels}`, `capsules`
for a JSON array of capsule records. -/
inductive Body where
  | msg (message : String)
  | msgErr (message error : String)
  | uploadOk (fileUrl : String) (detectedLabels : List String)
  | capsules (records : List CapsuleRec)
deriving DecidableEq

/-- An HTTP response: status code and JSON body. -/
structure Response where
  status : Nat
  body : Body
deriving DecidableEq

/-! ## Authentication middleware (src/main.js lines 61-71) -/

/-- Outcome of the `authenticateToken` middleware: either a rejection
response was sent, or the verified user id is attached to the request. -/
inductive AuthOutcome where
  | reject (response : Response)
  | proceed (userId : String)
deriving DecidableEq

/-- The `authenticateToken` middleware.  `verify` models
`jwt.verify(token, secret)` returning the subject id or throwing;
`header` models `req.header("Authorization")` (`none` = header absent).
JavaScript tests `if (!token)`, and the empty string is falsy, so an
empty header value is rejected with 401 exactly like an absent header. -/
def authenticateToken (verify : String → Except String String)
    (header : Option String) : AuthOutcome :=
  match header with
  | none => .reject ⟨401, .msg "Access Denied"⟩
  | some token =>
      if token = "" then .reject ⟨401, .msg "Access Denied"⟩
      else
        match verify token with
        | .error _ => .reject ⟨400, .msg "Invalid Token"⟩
        | .ok verified => .proceed verified

/-- A protected route: the middleware runs first; only on `proceed` does the
handler body run.  `idle` is the trace of a handler that was never entered
(no external calls made). -/
def withAuth {τ : Type} (verify : String → Except String String)
    (header : Option String) (handler : String → Response × τ) (idle : τ) :
    Response × τ :=
  match authenticateToken verify header with
  | .reject r => (r, idle)
  | .proceed u => handler u

/-! ## Node's path.extname (used at src/main.js line 83) -/

/-- Scan the reversed basename for its last dot.  `acc` holds the characters
already passed over, restored to source order. -/
def extnameLoop : List Char → List Char → String
  | _, [] => ""
  | acc, '.' :: rest => if rest = [] then "" else String.mk ('.' :: acc)
  | acc, c :: rest => extnameLoop (c :: acc) rest

/-- Node's `path.extname`: the suffix of the basename (the part after the
last slash) from its last dot, dot included; empty when the basename has
no dot or only a leading one. -/
def extname (p : String) : String :=
  extnameLoop [] (p.toList.reverse.takeWhile (fun c => c ≠ '/'))

/-! ## POST /api/upload (src/main.js lines 78-105) -/

/-- Environment configuration the upload handler reads:
`process.env.AWS_S3_BUCKET` and `process.env.AWS_REGION`. -/
structure UploadEnv where
  bucket : String
  region : String

/-- One `PutObjectCommand` sent to S3: the `uploadParams` object. -/
structure PutCall where
  bucket : String
  key : String
  body : List Nat
  contentType : String
deriving DecidableEq

/-- One `DetectLabelsCommand` sent to Rekognition: image bytes and the
`MaxLabels` bound. -/
structure DetectCall where
  bytes : List Nat
  maxLabels : Nat
deriving DecidableEq

/-- One label returned by Rekognition (`{Name, Confidence, ...}`); only
`Name` is read by the handler. -/
structure RekLabel where
  name : String
  confidence : Nat
deriving DecidableEq

/-- The external calls one upload request issued, in order of issue.
`deletes` records S3 object deletions: the source never issues one, so a
correct embedding keeps it empty on every path. -/
structure UploadTrace where
  puts : List PutCall
  detects : List DetectCall
  deletes : List String
deriving DecidableEq

/-- The trace of a request that issued no external call. -/
def emptyUploadTrace : UploadTrace := ⟨[], [], []⟩

/-- The retrieval URL the handler builds from bucket, region and key
(line 91). -/
def fileUrlOf (env : UploadEnv) (key : String) : String :=
  "https://" ++ env.bucket ++ ".s3." ++ env.region ++ ".amazonaws.com/" ++ key

/-- One multipart file part as multer's memory storage presents it:
`originalname`, `buffer` (raw bytes), `mimetype`. -/
structure UploadFile where
  originalname : String
  buffer : List Nat
  mimetype : String
deriving DecidableEq

/-- The POST /api/upload handler body (after authentication).  `uuid` models
the value of `crypto.randomUUID()`; `s3send` models `s3.send` on a put
command (ok or throw); `rekognitionSend` models `rekognition.send` on a
detect command (labels or throw); `file` models `req.file` (`none` when no
part named `file` was uploaded). -/
def apiUpload (env : UploadEnv) (uuid : String)
    (s3send : PutCall → Except String Unit)
    (rekognitionSend : DetectCall → Except String (List RekLabel))
    (file : Option UploadFile) : Response × UploadTrace :=
  match file with
  | none => (⟨400, .msg "No file uploaded"⟩, emptyUploadTrace)
  | some f =>
      let fileName := uuid ++ extname f.originalname
      let uploadParams : PutCall := ⟨env.bucket, fileName, f.buffer, f.mimetype⟩
      match s3send uploadParams with
      | .error e => (⟨500, .msgErr "Upload failed" e⟩, ⟨[uploadParams], [], []⟩)
      | .ok _ =>
          let fileUrl := fileUrlOf env fileName
          let rekognitionParams : DetectCall := ⟨f.buffer, 5⟩
          match rekognitionSend rekognitionParams with
          | .error e =>
              (⟨500, .msgErr "Upload failed" e⟩,
               ⟨[uploadParams], [rekognitionParams], []⟩)
          | .ok labels =>
              (⟨200, .uploadOk fileUrl (labels.map RekLabel.name)⟩,
               ⟨[uploadParams], [rekognitionParams], []⟩)

/-! ## POST /api/capsules/create (src/main.js lines 108-123) -/

/-- A create request body.  The handler destructures exactly
`{title, content, media, releaseDate}`; `user` models an extra `user`
field a client may also send, which the destructuring never reads. -/
structure CreateBody where
  title : String
  content : String
  media : List String
  releaseDate : String
  user : Option String
deriving DecidableEq

/-- The external mutable state the capsule routes touch: the Mongo capsule
collection (in insertion order) and the Redis cache (an association list
from key to stored string). -/
structure AppState where
  store : List CapsuleRec
  cache : List (String × String)
deriving DecidableEq

/-- The POST /api/capsules/create handler body (after authentication).
`userId` is `req.user.id` from the verified token.  `saveOk` models whether
`newCapsule.save()` succeeds; on a throw the catch block answers 500 and
nothing is persisted.  The fresh ObjectId is modelled as the collection's
current length. -/
def apiCapsulesCreate (userId : String) (body : CreateBody) (saveOk : Bool)
    (st : AppState) : Response × AppState :=
  let newCapsule : CapsuleRec :=
    { id := st.store.length, user := userId, title := body.title,
      content := body.content, media := body.media,
      releaseDate := body.releaseDate }
  if saveOk then
    (⟨201, .msg "Capsule created successfully"⟩,
     { st with store := st.store ++ [newCapsule] })
  else
    (⟨500, .msg "Server error"⟩, st)

/-! ## JSON.stringify / JSON.parse for capsule listings -/

/-- JSON string escaping for one character (quote and backslash). -/
def escChar (c : Char) : String :=
  if c = '"' then "\\\"" else if c = '\\' then "\\\\" else String.singleton c

/-- A JSON string literal. -/
def jsonStr (s : String) : String :=
  "\"" ++ String.join (s.toList.map escChar) ++ "\""

/-- A JSON array of string literals. -/
def jsonStrList (l : List String) : String :=
  "[" ++ String.intercalate "," (l.map jsonStr) ++ "]"

/-- `JSON.stringify` of one capsule document. -/
def serializeCapsule (c : CapsuleRec) : String :=
  "\x7b\"id\":" ++ toString c.id ++
  ",\"user\":" ++ jsonStr c.user ++
  ",\"title\":" ++ jsonStr c.title ++
  ",\"content\":" ++ jsonStr c.content ++
  ",\"media\":" ++ jsonStrList c.media ++
  ",\"releaseDate\":" ++ jsonStr c.releaseDate ++ "\x7d"

/-- `JSON.stringify` of a capsule listing (line 133). -/
def serializeCapsules (l : List CapsuleRec) : String :=
  "[" ++ String.intercalate "," (l.map serializeCapsule) ++ "]"

/-- Expect the literal `lit` as a prefix of the input. -/
def parseLit : List Char → List Char → Option (List Char)
  | [], cs => some cs
  | _ :: _, [] => none
  | l :: ls, c :: cs => if c = l then parseLit ls cs else none

/-- The body of a JSON string literal after its opening quote; a backslash
escapes the next character. -/
def parseStrBody : List Char → List Char → Option (String × List Char)
  | _, [] => none
  | acc, '\\' :: d :: rest => parseStrBody (d :: acc) rest
  | acc, '"' :: rest => some (String.mk acc.reverse, rest)
  | acc, c :: rest => parseStrBody (c :: acc) rest

/-- A JSON string literal. -/
def parseJsonStr (cs : List Char) : Option (String × List Char) :=
  match cs with
  | '"' :: rest => parseStrBody [] rest
  | _ => none

/-- Consume a run of decimal digits onto `n`. -/
def parseNatLoop : Nat → List Char → Nat × List Char
  | n, [] => (n, [])
  | n, c :: rest =>
      if c.isDigit then parseNatLoop (n * 10 + (c.toNat - 48)) rest
      else (n, c :: rest)

/-- A JSON natural number (at least one digit). -/
def parseJsonNat (cs : List Char) : Option (Nat × List Char) :=
  match cs with
  | c :: rest =>
      if c.isDigit then some (parseNatLoop (c.toNat - 48) rest) else none
  | [] => none

/-- Elements of a nonempty JSON string array, after its opening bracket. -/
def parseStrListLoop : Nat → List String → List Char →
    Option (List String × List Char)
  | 0, _, _ => none
  | Nat.succ fuel, acc, cs =>
      match parseJsonStr cs with
      | none => none
      | some (s, rest) =>
          match rest with
          | ',' :: rest2 => parseStrListLoop fuel (s :: acc) rest2
          | ']' :: rest2 => some ((s :: acc).reverse, rest2)
          | _ => none

/-- A JSON array of strings. -/
def parseJsonStrList (cs : List Char) : Option (List String × List Char) :=
  match cs with
  | '[' :: ']' :: rest => some ([], rest)
  | '[' :: rest => parseStrListLoop (rest.length + 1) [] rest
  | _ => none

/-- One serialized capsule object. -/
def parseCapsuleObj (cs : List Char) : Option (CapsuleRec × List Char) := do
  let cs ← parseLit ("\x7b\"id\":".toList) cs
  let (cid, cs) ← parseJsonNat cs
  let cs ← parseLit (",\"user\":".toList) cs
  let (user, cs) ← parseJsonStr cs
  let cs ← parseLit (",\"title\":".toList) cs
  let (title, cs) ← parseJsonStr cs
  let cs ← parseLit (",\"content\":".toList) cs
  let (content, cs) ← parseJsonStr cs
  let cs ← parseLit (",\"media\":".toList) cs
  let (media, cs) ← parseJsonStrList cs
  let cs ← parseLit (",\"releaseDate\":".toList) cs
  let (releaseDate, cs) ← parseJsonStr cs
  let cs ← parseLit ("\x7d".toList) cs
  some (⟨cid, user, title, content, media, releaseDate⟩, cs)

/-- Elements of a nonempty serialized listing, after its opening bracket. -/
def parseCapsListLoop : Nat → List CapsuleRec → List Char →
    Option (List CapsuleRec × List Char)
  | 0, _, _ => none
  | Nat.succ fuel, acc, cs =>
      match parseCapsuleObj cs with
      | none => none
      | some (c, rest) =>
          match rest with
          | ',' :: rest2 => parseCapsListLoop fuel (c :: acc) rest2
          | ']' :: rest2 => some ((c :: acc).reverse, rest2)
          | _ => none

/-- `JSON.parse` specialized to the grammar `serializeCapsules` emits;
`none` models a parse error (a throw in the handler's try block). -/
def parseCapsules (s : String) : Option (List CapsuleRec) :=
  match s.toList with
  | '[' :: ']' :: rest => if rest = [] then some [] else none
  | '[' :: rest =>
      match parseCapsListLoop (rest.length + 1) [] rest with
      | some (l, []) => some l
      | _ => none
  | _ => none

/-! ## GET /api/capsules (src/main.js lines 126-138) -/

/-- The cache key: the fixed prefix `capsules_` plus the caller's user id
(line 128). -/
def cacheKey (userId : String) : String := "capsules_" ++ userId

/-- The external collaborators the listing handler calls, each able to
throw: `redisClient.get`, `Capsule.find({user})`, `redisClient.setEx`. -/
structure ListOracles where
  redisGet : String → Except String (Option String)
  findByUser : String → Except String (List CapsuleRec)
  redisSetEx : String → Nat → String → Except String Unit

/-- The external calls one listing request issued: store queries (owner ids
passed to `Capsule.find`) and cache writes (key, TTL seconds, value). -/
structure ListTrace where
  finds : List String
  setExCalls : List (String × Nat × String)
deriving DecidableEq

/-- The cache-miss tail of the listing handler (lines 132-134): query the
store, write the serialized result with a 3600-second expiry, answer it. -/
def apiCapsulesMiss (userId : String) (o : ListOracles) :
    Response × ListTrace :=
  match o.findByUser userId with
  | .error _ => (⟨500, .msg "Server error"⟩, ⟨[userId], []⟩)
  | .ok capsules =>
      let payload := serializeCapsules capsules
      match o.redisSetEx (cacheKey userId) 3600 payload with
      | .error _ =>
          (⟨500, .msg "Server error"⟩,
           ⟨[userId], [(cacheKey userId, 3600, payload)]⟩)
      | .ok _ =>
          (⟨200, .capsules capsules⟩,
           ⟨[userId], [(cacheKey userId, 3600, payload)]⟩)

/-- The GET /api/capsules handler body (after authentication).  JavaScript
tests `if (cachedData)`: `null` and the empty string are both falsy, so
both fall through to the miss path; on a truthy hit it answers
`JSON.parse(cachedData)` without consulting the store, and a parse throw
is caught as a 500. -/
def apiCapsules (userId : String) (o : ListOracles) : Response × ListTrace :=
  match o.redisGet (cacheKey userId) with
  | .error _ => (⟨500, .msg "Server error"⟩, ⟨[], []⟩)
  | .ok none => apiCapsulesMiss userId o
  | .ok (some cachedData) =>
      if cachedData = "" then apiCapsulesMiss userId o
      else
        match parseCapsules cachedData with
        | none => (⟨500, .msg "Server error"⟩, ⟨[], []⟩)
        | some l => (⟨200, .capsules l⟩, ⟨[], []⟩)

/-- Look a key up in the modelled Redis cache. -/
def lookupCache (cache : List (String × String)) (k : String) :
    Option String :=
  (cache.find? (fun kv => kv.1 = k)).map Prod.snd

/-- Oracles over a concrete `AppState` in which every external call
succeeds: `get` reads the cache, `find` filters the collection by owner in
insertion order, `setEx` acknowledges. -/
def pureOracles (st : AppState) : ListOracles where
  redisGet := fun k => .ok (lookupCache st.cache k)
  findByUser := fun u => .ok (st.store.filter (fun c => c.user = u))
  redisSetEx := fun _ _ _ => .ok ()

/-- Apply the cache writes a trace records to the modelled cache. -/
def applyWrites (cache : List (String × String))
    (ws : List (String × Nat × String)) : List (String × String) :=
  ws.foldl (fun c w => (w.1, w.2.2) :: c.filter (fun kv => kv.1 ≠ w.1)) cache

/-- One listing request against a concrete `AppState` (all externals
succeed): the response, the state afterwards, and the trace. -/
def runList (userId : String) (st : AppState) :
    Response × AppState × ListTrace :=
  let rt := apiCapsules userId (pureOracles st)
  (rt.1, ⟨st.store, applyWrites st.cache rt.2.setExCalls⟩, rt.2)

/-! ## Helper lemmas and concrete collaborators for witnesses -/

theorem serializeCapsules_nil : serializeCapsules [] = "[]" := rfl

theorem parseCapsules_brackets : parseCapsules "[]" = some [] := rfl

theorem brackets_ne_empty : ("[]" : String) ≠ "" := by decide

theorem lookupCache_cons_self (k v : String) (c : List (String × String)) :
    lookupCache ((k, v) :: c) k = some v := by
  simp [lookupCache]

/-- An S3 client whose put always succeeds. -/
def s3ok : PutCall → Except String Unit := fun _ => .ok ()

/-- A detector that returns two labels for any image. -/
def rekTwo : DetectCall → Except String (List RekLabel) :=
  fun _ => .ok [⟨"Cat", 99⟩, ⟨"Pet", 90⟩]

/-- Listing collaborators with a cache hit holding the empty listing. -/
def oHit : ListOracles where
  redisGet := fun _ => .ok (some "[]")
  findByUser := fun _ => .ok []
  redisSetEx := fun _ _ _ => .ok ()

/-- Listing collaborators where the cache misses, the store answers one
record, and the cache write throws. -/
def oSetFail : ListOracles where
  redisGet := fun _ => .ok none
  findByUser := fun _ => .ok [⟨0, "u1", "T", "C", [], "d"⟩]
  redisSetEx := fun _ _ _ => .error "cache down"

/-- Listing collaborators where the cache misses and the store read
throws. -/
def oFindFail : ListOracles where
  redisGet := fun _ => .ok none
  findByUser := fun _ => .error "db down"
  redisSetEx := fun _ _ _ => .ok ()

/-! ## The claims -/

/-- C1: the listing handler computes the cache key as the fixed prefix plus
the caller's user id; on a cache hit it returns the deserialized cached
value and does not query the Capsule Store; on a miss it queries the store
for the owner's capsules, writes the serialized result with a 3600-second
expiry, and returns the freshly queried records. -/
theorem c1_listing_cache_aside (userId s : String) (l caps : List CapsuleRec)
    (o : ListOracles) :
    cacheKey userId = "capsules_" ++ userId ∧
    (o.redisGet (cacheKey userId) = .ok (some s) → s ≠ "" →
      parseCapsules s = some l →
      apiCapsules userId o = (⟨200, .capsules l⟩, ⟨[], []⟩)) ∧
    (o.redisGet (cacheKey userId) = .ok none →
      o.findByUser userId = .ok caps →
      o.redisSetEx (cacheKey userId) 3600 (serializeCapsules caps) = .ok () →
      apiCapsules userId o =
        (⟨200, .capsules caps⟩,
         ⟨[userId], [(cacheKey userId, 3600, serializeCapsules caps)]⟩)) := by
  refine ⟨rfl, ?_, ?_⟩
  · intro hget hne hparse
    simp [apiCapsules, hget, hne, hparse]
  · intro hget hfind hset
    simp [apiCapsules, apiCapsulesMiss, hget, hfind, hset]

/-- C2: a successful create persists exactly one new record whose owning
user is the authenticated caller's id taken from the verified token, never
from the request body (the outcome is identical whatever `user` field the
body carries), and the response status is 201. -/
theorem c2_create_owner_from_token (userId : String) (body : CreateBody)
    (st : AppState) :
    (apiCapsulesCreate userId body true st).1.status = 201 ∧
    (∃ r : CapsuleRec,
      (apiCapsulesCreate userId body true st).2.store = st.store ++ [r] ∧
      r.user = userId) ∧
    (∀ u2 : Option String,
      apiCapsulesCreate userId { body with user := u2 } true st =
        apiCapsulesCreate userId body true st) :=
  ⟨rfl, ⟨_, rfl, rfl⟩, fun _ => rfl⟩

/-- C3: an authenticated upload with one file part issues exactly one
storage put whose key is the random UUID followed by the original
filename's extension, submits the same raw bytes to the detector with
maxLabels 5, and on success answers the fileUrl built from bucket, region
and key, with detectedLabels the detector's label names in detector
order. -/
theorem c3_upload_single_file (env : UploadEnv) (uuid : String)
    (f : UploadFile) (s3send : PutCall → Except String Unit)
    (rekognitionSend : DetectCall → Except String (List RekLabel))
    (labels : List RekLabel)
    (hput : s3send ⟨env.bucket, uuid ++ extname f.originalname, f.buffer,
        f.mimetype⟩ = .ok ())
    (hdet : rekognitionSend ⟨f.buffer, 5⟩ = .ok labels) :
    apiUpload env uuid s3send rekognitionSend (some f) =
      (⟨200, .uploadOk (fileUrlOf env (uuid ++ extname f.originalname))
          (labels.map RekLabel.name)⟩,
       ⟨[⟨env.bucket, uuid ++ extname f.originalname, f.buffer, f.mimetype⟩],
        [⟨f.buffer, 5⟩], []⟩) := by
  simp [apiUpload, hput, hdet]

/-- C3 witness: the theorem at a concrete upload. -/
theorem c3_upload_single_file_witness :
    apiUpload ⟨"b", "r"⟩ "u" s3ok rekTwo
        (some ⟨"pic.png", [7, 8], "image/png"⟩) =
      (⟨200, .uploadOk "https://b.s3.r.amazonaws.com/u.png" ["Cat", "Pet"]⟩,
       ⟨[⟨"b", "u.png", [7, 8], "image/png"⟩], [⟨[7, 8], 5⟩], []⟩) :=
  c3_upload_single_file ⟨"b", "r"⟩ "u" ⟨"pic.png", [7, 8], "image/png"⟩
    s3ok rekTwo [⟨"Cat", 99⟩, ⟨"Pet", 90⟩] rfl rfl

/-- C4 (amended): with the Authorization header absent or carrying the
empty string (both falsy to the middleware's check), the response is 401;
with a non-empty token that fails verification it is 400; in all three
cases the handler body is not executed (the result is the same for every
handler and the trace is the idle one). -/
theorem c4_auth_gate {τ : Type} (verify : String → Except String String)
    (handler : String → Response × τ) (idle : τ) :
    withAuth verify none handler idle =
      (⟨401, .msg "Access Denied"⟩, idle) ∧
    withAuth verify (some "") handler idle =
      (⟨401, .msg "Access Denied"⟩, idle) ∧
    (∀ t e, t ≠ "" → verify t = .error e →
      withAuth verify (some t) handler idle =
        (⟨400, .msg "Invalid Token"⟩, idle)) := by
  refine ⟨rfl, rfl, fun t e hne hv => ?_⟩
  simp [withAuth, authenticateToken, hne, hv]

/-- C4 counterexample: a request whose Authorization header is present but
carries the empty string: verification fails on the empty token, yet the
response status is 401, not 400 as the claim states. -/
theorem c4_present_empty_header_is_401 :
    ((fun _ => .error "jwt must be provided" : String → Except String String)
        "" = .error "jwt must be provided") ∧
    (withAuth (fun _ => .error "jwt must be provided") (some "")
        (fun u => (⟨200, .msg u⟩, ([] : List String))) []).1.status = 401 ∧
    (withAuth (fun _ => .error "jwt must be provided") (some "")
        (fun u => (⟨200, .msg u⟩, ([] : List String))) []).1.status ≠ 400 := by
  refine ⟨rfl, rfl, ?_⟩
  decide

/-- C5: an authenticated upload with zero file parts answers 400 with
message "No file uploaded" and issues no storage or detector call. -/
theorem c5_upload_no_file (env : UploadEnv) (uuid : String)
    (s3send : PutCall → Except String Unit)
    (rekognitionSend : DetectCall → Except String (List RekLabel)) :
    apiUpload env uuid s3send rekognitionSend none =
      (⟨400, .msg "No file uploaded"⟩, ⟨[], [], []⟩) := rfl

/-- C6: a throw from the storage put, or from label detection after a
successful put, surfaces as a single 500 response whose body carries the
underlying error's message, and no compensating delete is issued on either
path (the deletes trace is empty, so an object stored before a detection
failure is orphaned). -/
theorem c6_upload_failure_paths (env : UploadEnv) (uuid : String)
    (f : UploadFile) (s3send : PutCall → Except String Unit)
    (rekognitionSend : DetectCall → Except String (List RekLabel)) :
    (∀ e, s3send ⟨env.bucket, uuid ++ extname f.originalname, f.buffer,
        f.mimetype⟩ = .error e →
      apiUpload env uuid s3send rekognitionSend (some f) =
        (⟨500, .msgErr "Upload failed" e⟩,
         ⟨[⟨env.bucket, uuid ++ extname f.originalname, f.buffer,
            f.mimetype⟩], [], []⟩)) ∧
    (∀ e, s3send ⟨env.bucket, uuid ++ extname f.originalname, f.buffer,
        f.mimetype⟩ = .ok () →
      rekognitionSend ⟨f.buffer, 5⟩ = .error e →
      apiUpload env uuid s3send rekognitionSend (some f) =
        (⟨500, .msgErr "Upload failed" e⟩,
         ⟨[⟨env.bucket, uuid ++ extname f.originalname, f.buffer,
            f.mimetype⟩], [⟨f.buffer, 5⟩], []⟩)) := by
  constructor
  · intro e he
    simp [apiUpload, he]
  · intro e hok he
    simp [apiUpload, hok, he]

/-- C7: when the cache misses, the store read succeeds but the cache write
throws, the response is the same 500 "Server error" that a store read
failure produces (indistinguishable), and the successfully read records
are not in the response body. -/
theorem c7_cache_write_failure_is_500 (userId : String)
    (caps : List CapsuleRec) (e e2 : String) (o o2 : ListOracles)
    (hget : o.redisGet (cacheKey userId) = .ok none)
    (hfind : o.findByUser userId = .ok caps)
    (hset : o.redisSetEx (cacheKey userId) 3600 (serializeCapsules caps) =
      .error e)
    (hget2 : o2.redisGet (cacheKey userId) = .ok none)
    (hfind2 : o2.findByUser userId = .error e2) :
    (apiCapsules userId o).1 = ⟨500, .msg "Server error"⟩ ∧
    (apiCapsules userId o2).1 = (apiCapsules userId o).1 ∧
    (apiCapsules userId o).1.body ≠ .capsules caps := by
  have h1 : apiCapsules userId o =
      (⟨500, .msg "Server error"⟩,
       ⟨[userId], [(cacheKey userId, 3600, serializeCapsules caps)]⟩) := by
    simp [apiCapsules, apiCapsulesMiss, hget, hfind, hset]
  have h2 : apiCapsules userId o2 =
      (⟨500, .msg "Server error"⟩, ⟨[userId], []⟩) := by
    simp [apiCapsules, apiCapsulesMiss, hget2, hfind2]
  refine ⟨by rw [h1], by rw [h1, h2], by rw [h1]; simp⟩

/-- C7 witness: the theorem at concrete collaborators. -/
theorem c7_cache_write_failure_is_500_witness :
    (apiCapsules "u1" oSetFail).1 = ⟨500, .msg "Server error"⟩ ∧
    (apiCapsules "u1" oFindFail).1 = (apiCapsules "u1" oSetFail).1 ∧
    (apiCapsules "u1" oSetFail).1.body ≠
      .capsules [⟨0, "u1", "T", "C", [], "d"⟩] :=
  c7_cache_write_failure_is_500 "u1" [⟨0, "u1", "T", "C", [], "d"⟩]
    "cache down" "db down" oSetFail oFindFail rfl rfl rfl rfl rfl

/-- C8: the create handler never reads, writes, invalidates or updates the
result cache: the cache is unchanged by a create, the create's outcome is
independent of the cache contents, and a listing after a create still
answers a pre-existing truthy cached entry without querying the store, so
the new capsule stays invisible to the listing until the entry expires. -/
theorem c8_create_cache_frame (userId : String) (body : CreateBody)
    (saveOk : Bool) (st : AppState) :
    (apiCapsulesCreate userId body saveOk st).2.cache = st.cache ∧
    (∀ cache2,
      (apiCapsulesCreate userId body saveOk ⟨st.store, cache2⟩).1 =
        (apiCapsulesCreate userId body saveOk st).1 ∧
      (apiCapsulesCreate userId body saveOk ⟨st.store, cache2⟩).2.store =
        (apiCapsulesCreate userId body saveOk st).2.store) ∧
    (∀ s l, lookupCache st.cache (cacheKey userId) = some s → s ≠ "" →
      parseCapsules s = some l →
      runList userId (apiCapsulesCreate userId body saveOk st).2 =
        (⟨200, .capsules l⟩, (apiCapsulesCreate userId body saveOk st).2,
         ⟨[], []⟩)) := by
  have hc : (apiCapsulesCreate userId body saveOk st).2.cache = st.cache := by
    cases saveOk <;> simp [apiCapsulesCreate]
  refine ⟨hc, fun cache2 => ?_, fun s l hs hne hp => ?_⟩
  · cases saveOk <;> simp [apiCapsulesCreate]
  · simp [runList, apiCapsules, pureOracles, applyWrites, hc, hs, hne, hp]
    rw [← hc]

/-- C9: repeating an identical create call twice appends two records to the
store (no deduplication, no idempotence key), the two persisted records
are distinct, and each call is acknowledged with 201. -/
theorem c9_create_not_idempotent (userId : String) (body : CreateBody)
    (st : AppState) :
    (apiCapsulesCreate userId body true st).1.status = 201 ∧
    (apiCapsulesCreate userId body true
        (apiCapsulesCreate userId body true st).2).1.status = 201 ∧
    ∃ a b : CapsuleRec,
      (apiCapsulesCreate userId body true
          (apiCapsulesCreate userId body true st).2).2.store =
        st.store ++ [a, b] ∧ a ≠ b := by
  refine ⟨rfl, rfl,
    ⟨⟨st.store.length, userId, body.title, body.content, body.media,
        body.releaseDate⟩,
      ⟨st.store.length + 1, userId, body.title, body.content, body.media,
        body.releaseDate⟩, ?_, ?_⟩⟩
  · simp [apiCapsulesCreate]
  · simp

/-- C10: for a user owning zero capsules and no cached entry, the first
listing stores the serialized empty list (the non-empty string "[]") in
the cache, and a second listing while that entry is cached answers the
empty list from the cache without querying the store. -/
theorem c10_empty_listing_cached (userId : String) (st : AppState)
    (hmiss : lookupCache st.cache (cacheKey userId) = none)
    (hempty : st.store.filter (fun c => c.user = userId) = []) :
    serializeCapsules ([] : List CapsuleRec) ≠ "" ∧
    (runList userId st).1 = ⟨200, .capsules []⟩ ∧
    (runList userId st).2.2.setExCalls = [(cacheKey userId, 3600, "[]")] ∧
    lookupCache (runList userId st).2.1.cache (cacheKey userId) =
      some "[]" ∧
    (runList userId (runList userId st).2.1).1 = ⟨200, .capsules []⟩ ∧
    (runList userId (runList userId st).2.1).2.2.finds = [] := by
  have h1 : runList userId st =
      (⟨200, .capsules []⟩,
       ⟨st.store, (cacheKey userId, "[]") ::
          st.cache.filter (fun kv => kv.1 ≠ cacheKey userId)⟩,
       ⟨[userId], [(cacheKey userId, 3600, "[]")]⟩) := by
    simp [runList, apiCapsules, apiCapsulesMiss, pureOracles, applyWrites,
      hmiss, hempty, serializeCapsules_nil]
  refine ⟨by decide, by rw [h1], by rw [h1], ?_, ?_, ?_⟩
  · rw [h1]
    exact lookupCache_cons_self _ _ _
  · rw [h1]
    simp [runList, apiCapsules, pureOracles, lookupCache_cons_self,
      brackets_ne_empty, parseCapsules_brackets]
  · rw [h1]
    simp [runList, apiCapsules, pureOracles, lookupCache_cons_self,
      brackets_ne_empty, parseCapsules_brackets]

/-- C10 witness: the theorem at a concrete user and empty state. -/
theorem c10_empty_listing_cached_witness :
    serializeCapsules ([] : List CapsuleRec) ≠ "" ∧
    (runList "u" ⟨[], []⟩).1 = ⟨200, .capsules []⟩ ∧
    (runList "u" ⟨[], []⟩).2.2.setExCalls = [(cacheKey "u", 3600, "[]")] ∧
    lookupCache (runList "u" ⟨[], []⟩).2.1.cache (cacheKey "u") =
      some "[]" ∧
    (runList "u" (runList "u" ⟨[], []⟩).2.1).1 = ⟨200, .capsules []⟩ ∧
    (runList "u" (runList "u" ⟨[], []⟩).2.1).2.2.finds = [] :=
  c10_empty_listing_cached "u" ⟨[], []⟩ rfl rfl

end TimeCapsule
